import Mathlib

/-!
# BLIP dissector (`packet-blip.c`): shallow embedding and checked properties

The dissector `dissect_blip` is a single C function that walks a packet buffer
(`tvbuff_t`), reads three protobuf style varints (message number, frame flags,
properties length), prints them, and registers items in the protocol tree.

Embedding conventions

* a `tvbuff_t` is the list of captured bytes, a byte is a `Fin 256`;
* the protocol tree is the list of `proto_tree_add_item` requests in call order,
  each one recorded with its field handle, start offset and length exactly as the
  source passes them (bounds enforcement by the host library is not part of
  `packet-blip.c` and is not modelled);
* `printf` output is the list of printed records in call order;
* the library routine `tvb_get_varint` is not part of `packet-blip.c`; it is modelled
  from the VarintReader contract of the specification (section 4.1);
* a failing varint read aborts the dissection (the host library unwinds the
  dissector); the tree and the output produced so far are kept.
-/

namespace Blip

/-! ## Data model -/

/-- One captured byte (`guint8`). -/
abbrev guint8 := Fin 256

/-- The packet buffer handed to the dissector: the captured bytes of one frame. -/
abbrev tvbuff_t := List guint8

/-- Failures of a varint read (specification section 4.1 and section 7). -/
inductive ErrorKind where
  | TruncatedVarint
  | VarintOverflow
  deriving DecidableEq, Repr

/-- Field handles registered by `proto_register_blip` (the `static int` handles of
the source), together with the protocol handle `proto_blip`. -/
inductive hf_index where
  | proto_blip
  | hf_blip_message_number
  | hf_blip_frame_flags
  | hf_blip_properties_length
  | hf_blip_properties
  deriving DecidableEq, Repr

/-- One `proto_tree_add_item (tree, hfindex, tvb, start, length, encoding)` request.
The length is a `gint`; the source passes `-1` (to the end of the buffer) for the
protocol item. -/
structure proto_item where
  hfindex : hf_index
  start : Nat
  length : Int
  deriving DecidableEq, Repr

/-- One `printf` call of `dissect_blip`, with the values it prints. -/
inductive printf_line where
  | message_number (value : Nat)
  | new_offset (offset : Int)
  | frame_flags (value : Nat)
  | frame_flags_binary (digits : List Char)
  | properties_length (value : Nat)
  | buf (offset : Nat) (length : Int)
  deriving DecidableEq, Repr

/-- What a run of `dissect_blip` leaves behind: the items added to the tree, the
lines printed, the last value of the local `offset`, and the last value of the
local `string_offset` (`none` while it is not yet initialised). -/
structure dissection where
  tree : List proto_item
  stdout : List printf_line
  offset : Int
  string_offset : Option Nat
  deriving DecidableEq, Repr

/-- Outcome of a run: the value returned by the dissector, or the failure that
aborted it. -/
inductive outcome where
  | returned (captured_length : Nat)
  | failed (e : ErrorKind)
  deriving DecidableEq, Repr

/-! ## Library routines used by the dissector -/

/-- Maximum number of bytes of a varint (`FT_VARINT_MAX_LEN` of the host library,
"a maximum of 10 bytes" in the specification). -/
def FT_VARINT_MAX_LEN : Nat := 10

/-- Modelled from the spec: the loop of the library routine `tvb_get_varint`, which
is not part of `packet-blip.c`. Byte number `i` of the varint contributes its low
seven bits at bit offset `7 * i` of the 64 bit accumulator; a byte with the high bit
clear terminates the varint. The buffer ending first is `TruncatedVarint`; running
out of the allowed number of bytes `n` is `VarintOverflow`. -/
def tvb_get_varint_loop (tvb : tvbuff_t) (offset : Nat) :
    Nat → Nat → Nat → Except ErrorKind (Nat × Nat)
  | _, _, 0 => .error .VarintOverflow
  | i, value, n + 1 =>
    match tvb[offset + i]? with
    | none => .error .TruncatedVarint
    | some b =>
      let value := (value ||| ((b.val &&& 0x7F) <<< (i * 7))) % 2 ^ 64
      if b.val < 0x80 then .ok (value, i + 1)
      else tvb_get_varint_loop tvb offset (i + 1) value n

/-- Modelled from the spec: the library routine `tvb_get_varint (tvb, offset, maxlen,
&value, ENC_VARINT_PROTOBUF)`, specified as `read_varint (bytes, offset)` returning
the decoded 64 bit value and the number of bytes consumed (section 4.1). -/
def tvb_get_varint (tvb : tvbuff_t) (offset maxlen : Nat) : Except ErrorKind (Nat × Nat) :=
  tvb_get_varint_loop tvb offset 0 0 (min FT_VARINT_MAX_LEN maxlen)

/-- The library routine `tvb_captured_length`: number of captured bytes. -/
def tvb_captured_length (tvb : tvbuff_t) : Nat := tvb.length

/-- Conversion of an unsigned value to `gint` (32 bit two's complement), as done by
the cast `(gint) value_properties_length` and by `offset += value_properties_length`. -/
def to_gint (x : Nat) : Int :=
  if x % 2 ^ 32 < 2 ^ 31 then ((x % 2 ^ 32 : Nat) : Int) else ((x % 2 ^ 32 : Nat) : Int) - 2 ^ 32

/-- The bytes a tree item covers in the buffer: `length` bytes from `start`, or
everything from `start` when the length is negative (`-1` in the source). -/
def item_bytes (tvb : tvbuff_t) (it : proto_item) : List guint8 :=
  if it.length < 0 then tvb.drop it.start else (tvb.drop it.start).take it.length.toNat

/-! ## The macro `PRINTF_BYTE_TO_BINARY_INT8` -/

/-- One argument of the macro: `(((i) & mask) ? '1' : '0')`. -/
def binary_digit (i mask : Int) : Char :=
  if Int.land i mask ≠ 0 then '1' else '0'

/-- The eight `%c` arguments produced by `PRINTF_BYTE_TO_BINARY_INT8(i)`, in order. -/
def PRINTF_BYTE_TO_BINARY_INT8 (i : Int) : List Char :=
  [binary_digit i 0x80, binary_digit i 0x40, binary_digit i 0x20, binary_digit i 0x10,
   binary_digit i 0x08, binary_digit i 0x04, binary_digit i 0x02, binary_digit i 0x01]

/-! ## The dissector -/

/-- The six property items of lines 175 to 198: fixed lengths 7, 10, 10, 4, 3, 3,
each followed by one separator byte, starting at `string_offset`. Returns the items
and the last value of `string_offset`. -/
def add_property_items (string_offset : Nat) : List proto_item × Nat :=
  let i1 : proto_item := ⟨.hf_blip_properties, string_offset, 7⟩
  let string_offset := string_offset + 7
  let string_offset := string_offset + 1
  let i2 : proto_item := ⟨.hf_blip_properties, string_offset, 10⟩
  let string_offset := string_offset + 10
  let string_offset := string_offset + 1
  let i3 : proto_item := ⟨.hf_blip_properties, string_offset, 10⟩
  let string_offset := string_offset + 10
  let string_offset := string_offset + 1
  let i4 : proto_item := ⟨.hf_blip_properties, string_offset, 4⟩
  let string_offset := string_offset + 4
  let string_offset := string_offset + 1
  let i5 : proto_item := ⟨.hf_blip_properties, string_offset, 3⟩
  let string_offset := string_offset + 3
  let string_offset := string_offset + 1
  let i6 : proto_item := ⟨.hf_blip_properties, string_offset, 3⟩
  let string_offset := string_offset + 3
  let string_offset := string_offset + 1
  ([i1, i2, i3, i4, i5, i6], string_offset)

/-- The function `dissect_blip (tvb, pinfo, tree, data)`. The column updates on
`pinfo` do not influence the decoding and are left out. -/
def dissect_blip (tvb : tvbuff_t) : dissection × outcome :=
  let offset : Nat := 0
  let tree : List proto_item := [⟨.proto_blip, offset, -1⟩]
  -- message number varint
  match tvb_get_varint tvb offset FT_VARINT_MAX_LEN with
  | .error e => (⟨tree, [], offset, none⟩, .failed e)
  | .ok (value_message_num, varint_message_num_length) =>
    let out := [printf_line.message_number value_message_num]
    let tree := tree ++ [⟨.hf_blip_message_number, offset, varint_message_num_length⟩]
    let offset := offset + varint_message_num_length
    let out := out ++ [.new_offset offset]
    -- frame flags varint
    match tvb_get_varint tvb offset FT_VARINT_MAX_LEN with
    | .error e => (⟨tree, out, offset, none⟩, .failed e)
    | .ok (value_frame_flags, varint_frame_flags_length) =>
      let out := out ++ [.frame_flags value_frame_flags]
      let tree := tree ++ [⟨.hf_blip_frame_flags, offset, varint_frame_flags_length⟩]
      let offset := offset + varint_frame_flags_length
      let out := out ++ [.new_offset offset]
      let out := out ++ [.frame_flags_binary (PRINTF_BYTE_TO_BINARY_INT8 value_frame_flags)]
      -- properties length varint
      match tvb_get_varint tvb offset FT_VARINT_MAX_LEN with
      | .error e => (⟨tree, out, offset, none⟩, .failed e)
      | .ok (value_properties_length, value_properties_length_varint_length) =>
        let out := out ++ [.properties_length value_properties_length]
        let tree := tree ++
          [⟨.hf_blip_properties_length, offset, value_properties_length_varint_length⟩]
        let offset := offset + value_properties_length_varint_length
        let out := out ++ [.new_offset offset]
        -- properties
        let out := out ++ [.buf offset (to_gint value_properties_length)]
        let props := add_property_items offset
        let tree := tree ++ props.1
        let offset : Int := to_gint ((offset + value_properties_length) % 2 ^ 64)
        let out := out ++ [.new_offset offset]
        (⟨tree, out, offset, some props.2⟩, .returned (tvb_captured_length tvb))

/-- The property items of a tree, in the order they were added. -/
def property_items (tree : List proto_item) : List proto_item :=
  tree.filter (fun it => it.hfindex = .hf_blip_properties)

/-- The header items (message number, frame flags, properties length) of a tree, in
the order they were added. -/
def header_items (tree : List proto_item) : List proto_item :=
  tree.filter (fun it =>
    it.hfindex = .hf_blip_message_number ∨ it.hfindex = .hf_blip_frame_flags ∨
    it.hfindex = .hf_blip_properties_length)

/-- The byte strings shown for the property items of a dissected buffer. -/
def property_strings (tvb : tvbuff_t) : List (List guint8) :=
  (property_items (dissect_blip tvb).1.tree).map (item_bytes tvb)

/-- The bytes of the scenario string
`"Profile\0subChanges\0continuous\0true\0foo\0bar\0"`. -/
def example_properties : List guint8 :=
  [0x50, 0x72, 0x6F, 0x66, 0x69, 0x6C, 0x65, 0x00,
   0x73, 0x75, 0x62, 0x43, 0x68, 0x61, 0x6E, 0x67, 0x65, 0x73, 0x00,
   0x63, 0x6F, 0x6E, 0x74, 0x69, 0x6E, 0x75, 0x6F, 0x75, 0x73, 0x00,
   0x74, 0x72, 0x75, 0x65, 0x00,
   0x66, 0x6F, 0x6F, 0x00,
   0x62, 0x61, 0x72, 0x00]

/-- The bytes of an ASCII string. -/
def ascii (s : String) : List guint8 :=
  s.toList.map (fun c => Fin.ofNat c.toNat)

/-! ## Specification side encoders -/

/-- The canonical base-128 encoding of `v` with recursion bounded by `fuel`: seven
value bits per byte, least significant group first, high bit set on every byte but
the last. -/
def encode_varint_fuel : Nat → Nat → List guint8
  | 0, v => [Fin.ofNat (v % 128)]
  | fuel + 1, v =>
    if v < 128 then [Fin.ofNat v]
    else Fin.ofNat (v % 128 + 128) :: encode_varint_fuel fuel (v / 128)

/-- The canonical base-128 varint encoding of `v` (fuel `v` always suffices). -/
def encode_varint (v : Nat) : List guint8 := encode_varint_fuel v v

/-- The NUL delimited properties block of a list of (key, value) pairs: each key
and each value followed by one NUL byte, in list order. -/
def encode_properties : List (List guint8 × List guint8) → List guint8
  | [] => []
  | (k, v) :: rest => k ++ [0] ++ v ++ [0] ++ encode_properties rest

/-- The strings of a list of (key, value) pairs in wire order: key, value, key,
value, and so on. -/
def pair_strings : List (List guint8 × List guint8) → List (List guint8)
  | [] => []
  | (k, v) :: rest => k :: v :: pair_strings rest

/-- No string of the pairs contains a NUL byte. -/
def no_nul (pairs : List (List guint8 × List guint8)) : Bool :=
  (pair_strings pairs).all (fun s => !s.contains 0)

/-- A frame carrying the given pairs: message number, flags, then the properties
block preceded by its byte length, all three header fields as canonical varints. -/
def properties_frame (message_number flags : Nat)
    (pairs : List (List guint8 × List guint8)) : tvbuff_t :=
  encode_varint message_number ++ encode_varint flags ++
    encode_varint (encode_properties pairs).length ++ encode_properties pairs

/-! ## Frame flags -/

/-- Modelled from the spec: the `Compressed` mask (section 3; also named in a comment
of `dissect_blip`). -/
def Compressed : Nat := 0x08

/-- Modelled from the spec: the `Urgent` mask (section 3). -/
def Urgent : Nat := 0x10

/-- Modelled from the spec: the `NoReply` mask (section 3). -/
def NoReply : Nat := 0x20

/-- Modelled from the spec: the `MoreComing` mask (section 3; also named in a comment
of `dissect_blip`). -/
def MoreComing : Nat := 0x40

/-- Modelled from the spec: the `TypeMask` of section 3, "low bits select message
type": the bits below `Compressed`. -/
def TypeMask : Nat := 0x07

/-- The decoded flags byte. -/
structure frame_flags_t where
  type_bits : Nat
  compressed : Bool
  urgent : Bool
  no_reply : Bool
  more_coming : Bool
  deriving DecidableEq, Repr

/-- Modelled from the spec: decoding of the flags bitfield by its masks (section 3);
`dissect_blip` itself only prints the flags. -/
def decode_flags (flags : Nat) : frame_flags_t :=
  { type_bits := flags &&& TypeMask
    compressed := flags &&& Compressed != 0
    urgent := flags &&& Urgent != 0
    no_reply := flags &&& NoReply != 0
    more_coming := flags &&& MoreComing != 0 }

/-! ## Predicates and concrete buffers used in the statements -/

/-- The items cover consecutive, non-empty spans starting at offset `o`: each item
starts where the previous one ended. -/
def spans_contiguous_from : Nat → List proto_item → Bool
  | _, [] => true
  | o, it :: rest =>
    decide (it.start = o) && decide (0 < it.length) &&
      spans_contiguous_from (o + it.length.toNat) rest

/-- The binary digits of `i mod 256`, most significant first, as characters. -/
def binary_digits_mod_256 (i : Int) : List Char :=
  [7, 6, 5, 4, 3, 2, 1, 0].map (fun k => if (i % 256) / 2 ^ k % 2 = 1 then '1' else '0')

/-- The scenario payload: `0x02, 0x00, 0x1F` followed by the example properties. -/
def scenario_frame : tvbuff_t := [0x02, 0x00, 0x1F] ++ example_properties

/-- A payload whose properties length is 0, followed by 43 further bytes. -/
def empty_properties_frame : tvbuff_t := [0x02, 0x00, 0x00] ++ example_properties

/-- Three pairs without NUL bytes whose first key and value have lengths 8 and 9:
(Profiles, subChange), (continuous, true), (foo, bar). -/
def shifted_pairs : List (List guint8 × List guint8) :=
  [(ascii "Profiles", ascii "subChange"), (ascii "continuous", ascii "true"),
   (ascii "foo", ascii "bar")]

/-- First frame of a two frame message: message number 1, flags `MoreComing`, the
example properties, body bytes "ab". -/
def first_frame : tvbuff_t := [0x01, 0x40, 0x2B] ++ example_properties ++ [0x61, 0x62]

/-- Second and last frame of the same message: message number 1, flags 0, the
example properties, body bytes "cd". -/
def second_frame : tvbuff_t := [0x01, 0x00, 0x2B] ++ example_properties ++ [0x63, 0x64]

/-! ## Varint reader: auxiliary facts -/

theorem or_shiftLeft_eq_add (value g k : Nat) (h : value < 2 ^ k) :
    value ||| (g <<< k) = value + g * 2 ^ k := by
  rw [Nat.shiftLeft_eq, Nat.mul_comm g, Nat.or_comm, ← Nat.mul_add_lt_is_or h, Nat.add_comm]

theorem and_7F_eq_mod (b : Nat) : b &&& 0x7F = b % 128 :=
  Nat.and_pow_two_sub_one_eq_mod b 7

theorem getElem?_of_drop_eq_cons {tvb : tvbuff_t} {k : Nat} {b : guint8} {rest : List guint8}
    (h : tvb.drop k = b :: rest) : tvb[k]? = some b ∧ tvb.drop (k + 1) = rest := by
  constructor
  · rw [← List.head?_drop, h]; rfl
  · rw [← List.tail_drop, h]; rfl

/-- Reading the canonical encoding of `w`, placed in the buffer at the current loop
position, adds `w * 2 ^ (7 * i)` to the accumulator and consumes its bytes. -/
theorem tvb_get_varint_loop_encode (tvb : tvbuff_t) (offset : Nat) :
    ∀ (fuel w i value n : Nat) (post : List guint8), w ≤ fuel → value < 2 ^ (7 * i) →
      value + w * 2 ^ (7 * i) < 2 ^ 64 → 0 < n → w < 2 ^ (7 * n) →
      tvb.drop (offset + i) = encode_varint_fuel fuel w ++ post →
      tvb_get_varint_loop tvb offset i value n =
        .ok (value + w * 2 ^ (7 * i), i + (encode_varint_fuel fuel w).length) := by
  intro fuel
  induction fuel with
  | zero =>
    intro w i value n post hw hv hb hn _ hd
    obtain ⟨n, rfl⟩ := Nat.exists_eq_succ_of_ne_zero (Nat.pos_iff_ne_zero.mp hn)
    have hw0 : w = 0 := by omega
    subst hw0
    simp only [encode_varint_fuel, List.singleton_append] at hd
    obtain ⟨hb0, -⟩ := getElem?_of_drop_eq_cons hd
    have hlt : value < 2 ^ 64 := by omega
    have hval : (Fin.ofNat (0 % 128) : guint8).val = 0 := rfl
    simp [tvb_get_varint_loop, hb0, hval, encode_varint_fuel]
    omega
  | succ fuel ih =>
    intro w i value n post hw hv hb hn hwn hd
    obtain ⟨n, rfl⟩ := Nat.exists_eq_succ_of_ne_zero (Nat.pos_iff_ne_zero.mp hn)
    have hpow : 2 ^ (7 * (i + 1)) = 2 ^ (7 * i) * 128 := by
      rw [Nat.mul_add, Nat.pow_add]
    have hpos : 0 < 2 ^ (7 * i) := Nat.pow_pos (by decide)
    by_cases hsmall : w < 128
    · simp only [encode_varint_fuel, hsmall, if_true, List.singleton_append] at hd
      obtain ⟨hb0, -⟩ := getElem?_of_drop_eq_cons hd
      have hval : (Fin.ofNat w : guint8).val = w := by
        show w % 256 = w
        omega
      simp only [tvb_get_varint_loop, hb0, hval, and_7F_eq_mod, Nat.mod_eq_of_lt hsmall,
        Nat.mul_comm i 7, or_shiftLeft_eq_add _ _ _ hv, Nat.mod_eq_of_lt hb, hsmall, if_true,
        encode_varint_fuel, List.length_singleton]
    · simp only [encode_varint_fuel, hsmall, if_false, List.cons_append] at hd
      obtain ⟨hb0, hd1⟩ := getElem?_of_drop_eq_cons hd
      have hval : (Fin.ofNat (w % 128 + 128) : guint8).val = w % 128 + 128 := by
        show (w % 128 + 128) % 256 = w % 128 + 128
        omega
      have hmod : (w % 128 + 128) % 128 = w % 128 := by omega
      have hnot : ¬ (w % 128 + 128 < 128) := by omega
      have hsplit : w * 2 ^ (7 * i) =
          (w % 128) * 2 ^ (7 * i) + (w / 128) * 2 ^ (7 * (i + 1)) := by
        rw [hpow]
        have := Nat.div_add_mod w 128
        calc w * 2 ^ (7 * i) = (128 * (w / 128) + w % 128) * 2 ^ (7 * i) := by rw [this]
          _ = _ := by ring
      have hacc : value + (w % 128) * 2 ^ (7 * i) < 2 ^ 64 := by
        have : 0 ≤ (w / 128) * 2 ^ (7 * (i + 1)) := Nat.zero_le _
        omega
      have hacc2 : value + (w % 128) * 2 ^ (7 * i) < 2 ^ (7 * (i + 1)) := by
        rw [hpow]
        have h1 : (w % 128) * 2 ^ (7 * i) ≤ 127 * 2 ^ (7 * i) :=
          Nat.mul_le_mul_right _ (by omega)
        omega
      have hn1 : 0 < n := by
        rcases Nat.eq_zero_or_pos n with h0 | h0
        · subst h0; simp at hwn; omega
        · exact h0
      have hwn1 : w / 128 < 2 ^ (7 * n) := by
        have : 2 ^ (7 * (n + 1)) = 2 ^ (7 * n) * 128 := by rw [Nat.mul_add, Nat.pow_add]
        rw [this] at hwn
        exact Nat.div_lt_of_lt_mul (by rw [Nat.mul_comm]; exact hwn)
      have hrec := ih (w / 128) (i + 1) (value + (w % 128) * 2 ^ (7 * i)) n post
        (by omega) hacc2 (by rw [Nat.add_assoc, ← hsplit]; exact hb) hn1 hwn1
        (by rw [← Nat.add_assoc]; exact hd1)
      simp only [tvb_get_varint_loop, hb0, hval, and_7F_eq_mod, hmod,
        Nat.mul_comm i 7, or_shiftLeft_eq_add _ _ _ hv, Nat.mod_eq_of_lt hacc, hnot, if_false,
        hrec, encode_varint_fuel, hsmall, List.length_cons]
      rw [Nat.add_assoc, ← hsplit]
      congr 2
      omega

/-- Reading the canonical encoding of a 64 bit value with `tvb_get_varint`, wherever
it sits in the buffer, returns the value and the number of bytes of the encoding. -/
theorem tvb_get_varint_encode (v : Nat) (hv : v < 2 ^ 64) (pre post : List guint8) :
    tvb_get_varint (pre ++ encode_varint v ++ post) pre.length FT_VARINT_MAX_LEN =
      .ok (v, (encode_varint v).length) := by
  have h := tvb_get_varint_loop_encode (pre ++ encode_varint v ++ post) pre.length v v 0 0 10 post
    (Nat.le_refl _) (by simp) (by simpa using hv) (by decide)
    (lt_of_lt_of_le hv (by norm_num))
    (by simp [encode_varint, List.append_assoc])
  simpa [tvb_get_varint, FT_VARINT_MAX_LEN, encode_varint] using h

/-- Every successful varint read consumes between 1 and `n` further bytes and
yields a 64 bit value. -/
theorem tvb_get_varint_loop_bounds (tvb : tvbuff_t) (offset : Nat) :
    ∀ (n i value v l : Nat), tvb_get_varint_loop tvb offset i value n = .ok (v, l) →
      i + 1 ≤ l ∧ l ≤ i + n ∧ v < 2 ^ 64 := by
  intro n
  induction n with
  | zero => intro i value v l h; simp [tvb_get_varint_loop] at h
  | succ n ih =>
    intro i value v l h
    unfold tvb_get_varint_loop at h
    cases hb : tvb[offset + i]? with
    | none => simp [hb] at h
    | some b =>
      simp only [hb] at h
      split at h
      · simp only [Except.ok.injEq, Prod.mk.injEq] at h
        obtain ⟨hv, hl⟩ := h
        subst hv hl
        exact ⟨Nat.le_refl _, by omega, Nat.mod_lt _ (by norm_num)⟩
      · have := ih _ _ _ _ h
        omega

theorem tvb_get_varint_bounds {tvb : tvbuff_t} {offset v l : Nat}
    (h : tvb_get_varint tvb offset FT_VARINT_MAX_LEN = .ok (v, l)) :
    1 ≤ l ∧ l ≤ 10 ∧ v < 2 ^ 64 := by
  have := tvb_get_varint_loop_bounds tvb offset _ _ _ _ _ h
  simp [FT_VARINT_MAX_LEN] at this
  omega

/-! ## The dissector: auxiliary facts -/

/-- The complete result of `dissect_blip` on a buffer whose three header varints
can be read. -/
theorem dissect_blip_of_header {tvb : tvbuff_t} {v1 l1 v2 l2 v3 l3 : Nat}
    (h1 : tvb_get_varint tvb 0 FT_VARINT_MAX_LEN = .ok (v1, l1))
    (h2 : tvb_get_varint tvb l1 FT_VARINT_MAX_LEN = .ok (v2, l2))
    (h3 : tvb_get_varint tvb (l1 + l2) FT_VARINT_MAX_LEN = .ok (v3, l3)) :
    dissect_blip tvb =
      (⟨[⟨.proto_blip, 0, -1⟩, ⟨.hf_blip_message_number, 0, l1⟩,
          ⟨.hf_blip_frame_flags, l1, l2⟩, ⟨.hf_blip_properties_length, l1 + l2, l3⟩] ++
          (add_property_items (l1 + l2 + l3)).1,
        [.message_number v1, .new_offset (l1 : Nat), .frame_flags v2,
          .new_offset ((l1 + l2 : Nat) : Int),
          .frame_flags_binary (PRINTF_BYTE_TO_BINARY_INT8 v2), .properties_length v3,
          .new_offset ((l1 + l2 + l3 : Nat) : Int), .buf (l1 + l2 + l3) (to_gint v3),
          .new_offset (to_gint ((l1 + l2 + l3 + v3) % 2 ^ 64))],
        to_gint ((l1 + l2 + l3 + v3) % 2 ^ 64),
        some (add_property_items (l1 + l2 + l3)).2⟩,
       .returned (tvb_captured_length tvb)) := by
  simp only [dissect_blip, Nat.zero_add, h1, h2, h3, List.cons_append, List.nil_append,
    List.append_assoc]

theorem add_property_items_eq (h : Nat) :
    add_property_items h =
      ([⟨.hf_blip_properties, h, 7⟩, ⟨.hf_blip_properties, h + 8, 10⟩,
        ⟨.hf_blip_properties, h + 19, 10⟩, ⟨.hf_blip_properties, h + 30, 4⟩,
        ⟨.hf_blip_properties, h + 35, 3⟩, ⟨.hf_blip_properties, h + 39, 3⟩], h + 43) := by
  simp only [add_property_items, Nat.add_assoc]

/-- The complete result of `dissect_blip` when the message number read fails. -/
theorem dissect_blip_of_error_0 {tvb : tvbuff_t} {e : ErrorKind}
    (h1 : tvb_get_varint tvb 0 FT_VARINT_MAX_LEN = .error e) :
    dissect_blip tvb = (⟨[⟨.proto_blip, 0, -1⟩], [], 0, none⟩, .failed e) := by
  simp [dissect_blip, h1]

/-- The complete result of `dissect_blip` when the frame flags read fails. -/
theorem dissect_blip_of_error_1 {tvb : tvbuff_t} {v1 l1 : Nat} {e : ErrorKind}
    (h1 : tvb_get_varint tvb 0 FT_VARINT_MAX_LEN = .ok (v1, l1))
    (h2 : tvb_get_varint tvb l1 FT_VARINT_MAX_LEN = .error e) :
    dissect_blip tvb =
      (⟨[⟨.proto_blip, 0, -1⟩, ⟨.hf_blip_message_number, 0, l1⟩],
        [.message_number v1, .new_offset (l1 : Nat)], (l1 : Nat), none⟩, .failed e) := by
  simp [dissect_blip, h1, h2]

/-- The complete result of `dissect_blip` when the properties length read fails. -/
theorem dissect_blip_of_error_2 {tvb : tvbuff_t} {v1 l1 v2 l2 : Nat} {e : ErrorKind}
    (h1 : tvb_get_varint tvb 0 FT_VARINT_MAX_LEN = .ok (v1, l1))
    (h2 : tvb_get_varint tvb l1 FT_VARINT_MAX_LEN = .ok (v2, l2))
    (h3 : tvb_get_varint tvb (l1 + l2) FT_VARINT_MAX_LEN = .error e) :
    dissect_blip tvb =
      (⟨[⟨.proto_blip, 0, -1⟩, ⟨.hf_blip_message_number, 0, l1⟩,
          ⟨.hf_blip_frame_flags, l1, l2⟩],
        [.message_number v1, .new_offset (l1 : Nat), .frame_flags v2,
          .new_offset ((l1 + l2 : Nat) : Int),
          .frame_flags_binary (PRINTF_BYTE_TO_BINARY_INT8 v2)],
        ((l1 + l2 : Nat) : Int), none⟩, .failed e) := by
  simp [dissect_blip, h1, h2, h3]

/-! ## Binary printing: auxiliary facts -/

theorem land_two_pow_ne_zero_iff (n k : Nat) : n &&& 2 ^ k ≠ 0 ↔ n / 2 ^ k % 2 = 1 := by
  rw [Nat.and_two_pow]
  have h := @Nat.testBit_to_div_mod k n
  have hp : 0 < 2 ^ k := Nat.pow_pos (by decide)
  cases hb : n.testBit k
  · rw [hb] at h
    have : ¬ (n / 2 ^ k % 2 = 1) := by simpa using h.symm
    simp [this]
  · rw [hb] at h
    have : n / 2 ^ k % 2 = 1 := by simpa using h.symm
    simp [this]

theorem ldiff_two_pow_ne_zero_iff (m k : Nat) : Nat.ldiff (2 ^ k) m ≠ 0 ↔ m / 2 ^ k % 2 = 0 := by
  have h := @Nat.testBit_to_div_mod k m
  have hp : 0 < 2 ^ k := Nat.pow_pos (by decide)
  have key : Nat.ldiff (2 ^ k) m = if m.testBit k then 0 else 2 ^ k := by
    apply Nat.eq_of_testBit_eq
    intro j
    rw [Nat.testBit_ldiff, Nat.testBit_two_pow]
    by_cases hjk : k = j
    · subst hjk
      cases hb : m.testBit k <;> simp [Nat.testBit_two_pow]
    · cases hb : m.testBit k <;> simp [hjk, Nat.testBit_two_pow]
  rw [key]
  cases hb : m.testBit k
  · rw [hb] at h
    have : ¬ (m / 2 ^ k % 2 = 1) := by simpa using h.symm
    simp; omega
  · rw [hb] at h
    have : m / 2 ^ k % 2 = 1 := by simpa using h.symm
    simp [this]

theorem int_land_two_pow_ne_zero_iff (i : Int) (k : Nat) (hk : k < 8) :
    Int.land i ((2 ^ k : Nat) : Int) ≠ 0 ↔ (i % 256) / 2 ^ k % 2 = 1 := by
  cases i with
  | ofNat n =>
    have h := land_two_pow_ne_zero_iff n k
    have e : Int.land (Int.ofNat n) ((2 ^ k : Nat) : Int) = ((n &&& 2 ^ k : Nat) : Int) := rfl
    rw [e, Int.ofNat_eq_coe]
    rw [Ne, Int.natCast_eq_zero, ← Ne, h]
    interval_cases k <;> norm_num <;> omega
  | negSucc m =>
    have h := ldiff_two_pow_ne_zero_iff m k
    have e : Int.land (Int.negSucc m) ((2 ^ k : Nat) : Int) = ((Nat.ldiff (2 ^ k) m : Nat) : Int) := rfl
    rw [e, Ne, Int.natCast_eq_zero, ← Ne, h, Int.negSucc_eq]
    interval_cases k <;> norm_num <;> omega

theorem binary_digit_two_pow (i : Int) (k : Nat) (hk : k < 8) :
    binary_digit i ((2 ^ k : Nat) : Int) = if (i % 256) / 2 ^ k % 2 = 1 then '1' else '0' := by
  unfold binary_digit
  by_cases h : (i % 256) / 2 ^ k % 2 = 1
  · rw [if_pos ((int_land_two_pow_ne_zero_iff i k hk).mpr h), if_pos h]
  · rw [if_neg (fun hc => h ((int_land_two_pow_ne_zero_iff i k hk).mp hc)), if_neg h]

theorem binary_digit_cases (i mask : Int) :
    binary_digit i mask = '0' ∨ binary_digit i mask = '1' := by
  unfold binary_digit
  split
  · exact Or.inr rfl
  · exact Or.inl rfl

/-! ## Claims -/

/-- C1 (as stated, refuted): on the scenario payload the offset after the properties
block is not the payload length, so the body is not empty. -/
theorem C1_offset_differs_from_payload_length :
    ¬ ((dissect_blip scenario_frame).1.offset = (tvb_captured_length scenario_frame : Int)) := by
  decide

/-- C1 (amended): on the scenario payload `dissect_blip` prints message number 2,
flags 0 and properties length 31, adds the six property items whose bytes are
Profile, subChanges, continuous, true, foo, bar in wire order, and leaves the offset
at 34 = 3 + 31 while the payload has 46 bytes: the twelve bytes `rue\0foo\0bar\0`
remain after the declared properties block. -/
theorem C1_scenario_decoding :
    dissect_blip scenario_frame =
      (⟨[⟨.proto_blip, 0, -1⟩, ⟨.hf_blip_message_number, 0, 1⟩, ⟨.hf_blip_frame_flags, 1, 1⟩,
          ⟨.hf_blip_properties_length, 2, 1⟩, ⟨.hf_blip_properties, 3, 7⟩,
          ⟨.hf_blip_properties, 11, 10⟩, ⟨.hf_blip_properties, 22, 10⟩,
          ⟨.hf_blip_properties, 33, 4⟩, ⟨.hf_blip_properties, 38, 3⟩,
          ⟨.hf_blip_properties, 42, 3⟩],
        [.message_number 2, .new_offset 1, .frame_flags 0, .new_offset 2,
          .frame_flags_binary ['0', '0', '0', '0', '0', '0', '0', '0'],
          .properties_length 31, .new_offset 3, .buf 3 31, .new_offset 34],
        34, some 46⟩, .returned 46) ∧
    property_strings scenario_frame =
      [ascii "Profile", ascii "subChanges", ascii "continuous", ascii "true", ascii "foo",
       ascii "bar"] ∧
    tvb_captured_length scenario_frame = 46 ∧
    scenario_frame.drop 34 = ascii "rue\x00foo\x00bar\x00" ∧
    (scenario_frame.drop 34).length = 12 := by
  decide

/-- C3: on the single byte payload `[0x02]` the dissector reads message number 2
(one byte), then the flags read fails with `TruncatedVarint`; the dissection stops
there with a typed failure: no flags, properties length or property item is added. -/
theorem C3_single_byte_truncated :
    tvb_get_varint [0x02] 0 FT_VARINT_MAX_LEN = .ok (2, 1) ∧
    tvb_get_varint [0x02] 1 FT_VARINT_MAX_LEN = .error .TruncatedVarint ∧
    dissect_blip [0x02] =
      (⟨[⟨.proto_blip, 0, -1⟩, ⟨.hf_blip_message_number, 0, 1⟩],
        [.message_number 2, .new_offset 1], 1, none⟩, .failed .TruncatedVarint) := by
  refine ⟨rfl, rfl, ?_⟩
  decide

/-- C4 (as stated, refuted): with the masks of the claim, the flags byte 0x48 does
not have `Urgent` set. -/
theorem C4_urgent_not_set :
    ¬ ((decode_flags 0x48).urgent = true ∧ (decode_flags 0x48).more_coming = true ∧
       (decode_flags 0x48).type_bits = 0) := by
  decide

/-- C4 (amended): with Compressed = 0x08, Urgent = 0x10, NoReply = 0x20 and
MoreComing = 0x40, the flags byte 0x48 decodes to Compressed = true,
MoreComing = true, Urgent = false, NoReply = false and type bits 0. The bit tests of
the source macro agree: for 0x48 the digits of masks 0x40 and 0x08 are '1', the
digit of mask 0x10 is '0'. -/
theorem C4_flags_0x48 :
    Compressed = 0x08 ∧ Urgent = 0x10 ∧ NoReply = 0x20 ∧ MoreComing = 0x40 ∧
    decode_flags 0x48 =
      { type_bits := 0, compressed := true, urgent := false, no_reply := false,
        more_coming := true } ∧
    binary_digit 0x48 0x40 = '1' ∧ binary_digit 0x48 0x08 = '1' ∧
    binary_digit 0x48 0x10 = '0' ∧ binary_digit 0x48 0x20 = '0' := by
  decide

/-- C7 (evaluation of the code): two frames with message number 1, the first with
`MoreComing` set and body "ab", the second without it and body "cd". Each frame is
dissected on its own: both runs add only the whole frame protocol item (offset 0,
length -1), the header items and the six property items; no field item is added for
the body bytes at offsets 46 and 47, and nothing records a completed message or a
concatenated body. -/
theorem C7_frames_dissected_independently :
    (decode_flags 0x40).more_coming = true ∧ (decode_flags 0x00).more_coming = false ∧
    first_frame.drop 46 = [0x61, 0x62] ∧ second_frame.drop 46 = [0x63, 0x64] ∧
    (dissect_blip first_frame).1.tree =
      [⟨.proto_blip, 0, -1⟩, ⟨.hf_blip_message_number, 0, 1⟩, ⟨.hf_blip_frame_flags, 1, 1⟩,
       ⟨.hf_blip_properties_length, 2, 1⟩, ⟨.hf_blip_properties, 3, 7⟩,
       ⟨.hf_blip_properties, 11, 10⟩, ⟨.hf_blip_properties, 22, 10⟩,
       ⟨.hf_blip_properties, 33, 4⟩, ⟨.hf_blip_properties, 38, 3⟩,
       ⟨.hf_blip_properties, 42, 3⟩] ∧
    (dissect_blip second_frame).1.tree = (dissect_blip first_frame).1.tree ∧
    (dissect_blip first_frame).2 = .returned 48 ∧
    (dissect_blip second_frame).2 = .returned 48 ∧
    (dissect_blip second_frame).1.stdout =
      [.message_number 1, .new_offset 1, .frame_flags 0, .new_offset 2,
       .frame_flags_binary ['0', '0', '0', '0', '0', '0', '0', '0'],
       .properties_length 43, .new_offset 3, .buf 3 43, .new_offset 46] := by
  decide

/-- C2: for every 64 bit value `v`, reading a varint (at most `FT_VARINT_MAX_LEN` = 10
bytes) from the canonical base-128 encoding of `v` returns `v` and a consumed length
equal to the number of bytes of the encoding; this holds at offset 0 of the encoding
alone and wherever the encoding sits inside a larger buffer, and the encoding has at
most 10 bytes. -/
theorem C2_varint_roundtrip (v : Nat) (hv : v < 2 ^ 64) :
    tvb_get_varint (encode_varint v) 0 FT_VARINT_MAX_LEN = .ok (v, (encode_varint v).length) ∧
    (encode_varint v).length ≤ 10 ∧
    ∀ pre post : List guint8,
      tvb_get_varint (pre ++ encode_varint v ++ post) pre.length FT_VARINT_MAX_LEN =
        .ok (v, (encode_varint v).length) := by
  have h0 := tvb_get_varint_encode v hv [] []
  simp only [List.nil_append, List.append_nil, List.length_nil] at h0
  exact ⟨h0, (tvb_get_varint_bounds h0).2.1, tvb_get_varint_encode v hv⟩

/-- C2 at the value 300, whose encoding is the two bytes `0xAC 0x02`. -/
theorem C2_varint_roundtrip_witness :
    300 < 2 ^ 64 ∧ encode_varint 300 = [0xAC, 0x02] ∧
    (tvb_get_varint (encode_varint 300) 0 FT_VARINT_MAX_LEN =
        .ok (300, (encode_varint 300).length) ∧
      (encode_varint 300).length ≤ 10 ∧
      ∀ pre post : List guint8,
        tvb_get_varint (pre ++ encode_varint 300 ++ post) pre.length FT_VARINT_MAX_LEN =
          .ok (300, (encode_varint 300).length)) :=
  ⟨by norm_num, by decide, C2_varint_roundtrip 300 (by norm_num)⟩

/-- C5 (evaluation of the code): the payload `0x02 0x00 0x00` followed by the 43
example bytes has properties length 0. The string request and the final offset
honour the declared length (length 0, offset 3), yet the dissection adds six
property items at the literal positions 3, 11, 22, 33, 38, 42, whose bytes are
Profile, subChanges, continuous, true, foo, bar: bytes that lie after the declared
(empty) properties block. -/
theorem C5_six_items_with_zero_length :
    tvb_get_varint empty_properties_frame 2 FT_VARINT_MAX_LEN = .ok (0, 1) ∧
    (dissect_blip empty_properties_frame).1.stdout =
      [.message_number 2, .new_offset 1, .frame_flags 0, .new_offset 2,
       .frame_flags_binary ['0', '0', '0', '0', '0', '0', '0', '0'],
       .properties_length 0, .new_offset 3, .buf 3 0, .new_offset 3] ∧
    property_items (dissect_blip empty_properties_frame).1.tree =
      [⟨.hf_blip_properties, 3, 7⟩, ⟨.hf_blip_properties, 11, 10⟩,
       ⟨.hf_blip_properties, 22, 10⟩, ⟨.hf_blip_properties, 33, 4⟩,
       ⟨.hf_blip_properties, 38, 3⟩, ⟨.hf_blip_properties, 42, 3⟩] ∧
    property_strings empty_properties_frame =
      [ascii "Profile", ascii "subChanges", ascii "continuous", ascii "true", ascii "foo",
       ascii "bar"] ∧
    property_strings empty_properties_frame ≠ [] ∧
    (dissect_blip empty_properties_frame).2 = .returned 46 := by
  refine ⟨rfl, ?_, ?_, ?_, ?_, ?_⟩ <;> decide

/-- C6 (evaluation of the code): the pairs (Profiles, subChange), (continuous, true),
(foo, bar) contain no NUL byte, their block has 43 bytes and the frame declares 43
as properties length, yet the decoded strings are not the original ones: the items
are cut at the literal positions, so the first is `Profile` and the second is
`\0subChange` (the separator skip lands on the `s` of `Profiles`). -/
theorem C6_roundtrip_fails :
    no_nul shifted_pairs = true ∧
    (encode_properties shifted_pairs).length = 43 ∧
    properties_frame 2 0 shifted_pairs = [0x02, 0x00, 0x2B] ++ encode_properties shifted_pairs ∧
    encode_properties shifted_pairs =
      ascii "Profiles\x00subChange\x00continuous\x00true\x00foo\x00bar\x00" ∧
    pair_strings shifted_pairs =
      [ascii "Profiles", ascii "subChange", ascii "continuous", ascii "true", ascii "foo",
       ascii "bar"] ∧
    property_strings (properties_frame 2 0 shifted_pairs) =
      [ascii "Profile", ascii "\x00subChange", ascii "continuous", ascii "true", ascii "foo",
       ascii "bar"] ∧
    property_strings (properties_frame 2 0 shifted_pairs) ≠ pair_strings shifted_pairs ∧
    (dissect_blip (properties_frame 2 0 shifted_pairs)).2 = .returned 46 := by
  decide

/-- C8 (as stated, refuted): on the single byte payload `[0x02]` only the message
number varint is read; the flags read at offset 1 fails, so there is one header
item, no flags item and no properties length item, and the dissection fails. -/
theorem C8_single_byte_one_header_item :
    header_items (dissect_blip [0x02]).1.tree = [⟨.hf_blip_message_number, 0, 1⟩] ∧
    (¬ ∃ v l, tvb_get_varint [0x02] 1 FT_VARINT_MAX_LEN = .ok (v, l)) ∧
    (∀ it ∈ (dissect_blip [0x02]).1.tree, it.hfindex ≠ .hf_blip_frame_flags ∧
      it.hfindex ≠ .hf_blip_properties_length ∧ it.hfindex ≠ .hf_blip_properties) ∧
    (dissect_blip [0x02]).2 = .failed .TruncatedVarint := by
  refine ⟨by decide, ?_, by decide, by decide⟩
  rintro ⟨v, l, h⟩
  have herr : tvb_get_varint [0x02] 1 FT_VARINT_MAX_LEN = .error .TruncatedVarint := rfl
  rw [herr] at h
  cases h

/-- C8 (amended): for every payload, `dissect_blip` reads the header varints
consecutively from the start of the payload and stops at the first read that fails:
the message number at offset 0, then the flags at the offset equal to the message
number's consumed length, then the properties length at the offset equal to the sum
of the first two consumed lengths. The header items added are exactly those of the
reads that succeeded, with the consumed lengths as item lengths; their spans are
contiguous, non-empty and non-overlapping. When all three reads succeed, the three
values are printed, the properties block (the string request and the first
property item) starts at the sum of the three consumed lengths, and the dissector
returns the captured length. -/
theorem C8_header_varints_consecutive (tvb : tvbuff_t) :
    spans_contiguous_from 0 (header_items (dissect_blip tvb).1.tree) = true ∧
    (∀ e, tvb_get_varint tvb 0 FT_VARINT_MAX_LEN = .error e →
      header_items (dissect_blip tvb).1.tree = [] ∧
      property_items (dissect_blip tvb).1.tree = [] ∧
      (dissect_blip tvb).2 = .failed e) ∧
    (∀ v1 l1 e, tvb_get_varint tvb 0 FT_VARINT_MAX_LEN = .ok (v1, l1) →
      tvb_get_varint tvb l1 FT_VARINT_MAX_LEN = .error e →
      header_items (dissect_blip tvb).1.tree = [⟨.hf_blip_message_number, 0, l1⟩] ∧
      0 < l1 ∧
      property_items (dissect_blip tvb).1.tree = [] ∧
      (dissect_blip tvb).2 = .failed e) ∧
    (∀ v1 l1 v2 l2 e, tvb_get_varint tvb 0 FT_VARINT_MAX_LEN = .ok (v1, l1) →
      tvb_get_varint tvb l1 FT_VARINT_MAX_LEN = .ok (v2, l2) →
      tvb_get_varint tvb (l1 + l2) FT_VARINT_MAX_LEN = .error e →
      header_items (dissect_blip tvb).1.tree =
        [⟨.hf_blip_message_number, 0, l1⟩, ⟨.hf_blip_frame_flags, l1, l2⟩] ∧
      0 < l1 ∧ 0 < l2 ∧
      property_items (dissect_blip tvb).1.tree = [] ∧
      (dissect_blip tvb).2 = .failed e) ∧
    (∀ v1 l1 v2 l2 v3 l3, tvb_get_varint tvb 0 FT_VARINT_MAX_LEN = .ok (v1, l1) →
      tvb_get_varint tvb l1 FT_VARINT_MAX_LEN = .ok (v2, l2) →
      tvb_get_varint tvb (l1 + l2) FT_VARINT_MAX_LEN = .ok (v3, l3) →
      header_items (dissect_blip tvb).1.tree =
        [⟨.hf_blip_message_number, 0, l1⟩, ⟨.hf_blip_frame_flags, l1, l2⟩,
         ⟨.hf_blip_properties_length, l1 + l2, l3⟩] ∧
      0 < l1 ∧ 0 < l2 ∧ 0 < l3 ∧
      printf_line.message_number v1 ∈ (dissect_blip tvb).1.stdout ∧
      printf_line.frame_flags v2 ∈ (dissect_blip tvb).1.stdout ∧
      printf_line.properties_length v3 ∈ (dissect_blip tvb).1.stdout ∧
      printf_line.buf (l1 + l2 + l3) (to_gint v3) ∈ (dissect_blip tvb).1.stdout ∧
      (property_items (dissect_blip tvb).1.tree).head? =
        some ⟨.hf_blip_properties, l1 + l2 + l3, 7⟩ ∧
      (dissect_blip tvb).2 = .returned (tvb_captured_length tvb)) := by
  refine ⟨?_, ?_, ?_, ?_, ?_⟩
  · cases h1 : tvb_get_varint tvb 0 FT_VARINT_MAX_LEN with
    | error e =>
      rw [dissect_blip_of_error_0 h1]
      simp [header_items, spans_contiguous_from]
    | ok r1 =>
      obtain ⟨v1, l1⟩ := r1
      have b1 := tvb_get_varint_bounds h1
      cases h2 : tvb_get_varint tvb l1 FT_VARINT_MAX_LEN with
      | error e =>
        rw [dissect_blip_of_error_1 h1 h2]
        simp [header_items, spans_contiguous_from]; omega
      | ok r2 =>
        obtain ⟨v2, l2⟩ := r2
        have b2 := tvb_get_varint_bounds h2
        cases h3 : tvb_get_varint tvb (l1 + l2) FT_VARINT_MAX_LEN with
        | error e =>
          rw [dissect_blip_of_error_2 h1 h2 h3]
          simp [header_items, spans_contiguous_from]; omega
        | ok r3 =>
          obtain ⟨v3, l3⟩ := r3
          have b3 := tvb_get_varint_bounds h3
          rw [dissect_blip_of_header h1 h2 h3, add_property_items_eq]
          simp [header_items, spans_contiguous_from]; omega
  · intro e h1
    rw [dissect_blip_of_error_0 h1]
    simp [header_items, property_items]
  · intro v1 l1 e h1 h2
    have b1 := tvb_get_varint_bounds h1
    rw [dissect_blip_of_error_1 h1 h2]
    refine ⟨by simp [header_items], by omega, by simp [property_items], rfl⟩
  · intro v1 l1 v2 l2 e h1 h2 h3
    have b1 := tvb_get_varint_bounds h1
    have b2 := tvb_get_varint_bounds h2
    rw [dissect_blip_of_error_2 h1 h2 h3]
    refine ⟨by simp [header_items], by omega, by omega, by simp [property_items], rfl⟩
  · intro v1 l1 v2 l2 v3 l3 h1 h2 h3
    have b1 := tvb_get_varint_bounds h1
    have b2 := tvb_get_varint_bounds h2
    have b3 := tvb_get_varint_bounds h3
    rw [dissect_blip_of_header h1 h2 h3, add_property_items_eq]
    refine ⟨by simp [header_items], by omega, by omega, by omega, by simp, by simp, by simp,
      by simp, by simp [property_items], rfl⟩

/-- C8 (amended) at the scenario payload, where the three reads succeed with values
2, 0, 31 and lengths 1, 1, 1: the header spans are (0, 1), (1, 1), (2, 1) and the
properties block starts at offset 3. -/
theorem C8_header_varints_consecutive_witness :
    tvb_get_varint scenario_frame 0 FT_VARINT_MAX_LEN = .ok (2, 1) ∧
    tvb_get_varint scenario_frame 1 FT_VARINT_MAX_LEN = .ok (0, 1) ∧
    tvb_get_varint scenario_frame (1 + 1) FT_VARINT_MAX_LEN = .ok (31, 1) ∧
    (header_items (dissect_blip scenario_frame).1.tree =
        [⟨.hf_blip_message_number, 0, (1 : Nat)⟩, ⟨.hf_blip_frame_flags, 1, (1 : Nat)⟩,
         ⟨.hf_blip_properties_length, 1 + 1, (1 : Nat)⟩] ∧
      0 < 1 ∧ 0 < 1 ∧ 0 < 1 ∧
      printf_line.message_number 2 ∈ (dissect_blip scenario_frame).1.stdout ∧
      printf_line.frame_flags 0 ∈ (dissect_blip scenario_frame).1.stdout ∧
      printf_line.properties_length 31 ∈ (dissect_blip scenario_frame).1.stdout ∧
      printf_line.buf (1 + 1 + 1) (to_gint 31) ∈ (dissect_blip scenario_frame).1.stdout ∧
      (property_items (dissect_blip scenario_frame).1.tree).head? =
        some ⟨.hf_blip_properties, 1 + 1 + 1, 7⟩ ∧
      (dissect_blip scenario_frame).2 = .returned (tvb_captured_length scenario_frame)) :=
  ⟨rfl, rfl, rfl, (C8_header_varints_consecutive scenario_frame).2.2.2.2 2 1 0 1 31 1 rfl rfl rfl⟩

/-- C9: for every payload whose three header varints are read, with `h` the offset
just after them, `dissect_blip` adds exactly six property items, at offsets
h, h+8, h+19, h+30, h+35, h+39 with lengths 7, 10, 10, 4, 3, 3 in that order. The
positions are a function of `h` alone: neither the decoded properties length `v3`
nor the bytes of the payload occur in them. `string_offset` ends at h + 43, so the
items with their separators span 43 bytes. -/
theorem C9_six_fixed_property_items (tvb : tvbuff_t) (v1 l1 v2 l2 v3 l3 : Nat)
    (h1 : tvb_get_varint tvb 0 FT_VARINT_MAX_LEN = .ok (v1, l1))
    (h2 : tvb_get_varint tvb l1 FT_VARINT_MAX_LEN = .ok (v2, l2))
    (h3 : tvb_get_varint tvb (l1 + l2) FT_VARINT_MAX_LEN = .ok (v3, l3)) :
    property_items (dissect_blip tvb).1.tree =
      [⟨.hf_blip_properties, l1 + l2 + l3, 7⟩, ⟨.hf_blip_properties, l1 + l2 + l3 + 8, 10⟩,
       ⟨.hf_blip_properties, l1 + l2 + l3 + 19, 10⟩, ⟨.hf_blip_properties, l1 + l2 + l3 + 30, 4⟩,
       ⟨.hf_blip_properties, l1 + l2 + l3 + 35, 3⟩, ⟨.hf_blip_properties, l1 + l2 + l3 + 39, 3⟩] ∧
    (property_items (dissect_blip tvb).1.tree).length = 6 ∧
    (dissect_blip tvb).1.string_offset = some (l1 + l2 + l3 + 43) := by
  rw [dissect_blip_of_header h1 h2 h3, add_property_items_eq]
  simp [property_items]

/-- C9 at a payload with a two byte message number, properties length 0 and no
further bytes: the six items are still placed at 4, 12, 23, 34, 39, 43. -/
theorem C9_six_fixed_property_items_witness :
    property_items (dissect_blip [0xAC, 0x02, 0x00, 0x00]).1.tree =
      [⟨.hf_blip_properties, 2 + 1 + 1, 7⟩, ⟨.hf_blip_properties, 2 + 1 + 1 + 8, 10⟩,
       ⟨.hf_blip_properties, 2 + 1 + 1 + 19, 10⟩, ⟨.hf_blip_properties, 2 + 1 + 1 + 30, 4⟩,
       ⟨.hf_blip_properties, 2 + 1 + 1 + 35, 3⟩, ⟨.hf_blip_properties, 2 + 1 + 1 + 39, 3⟩] ∧
    (property_items (dissect_blip [0xAC, 0x02, 0x00, 0x00]).1.tree).length = 6 ∧
    (dissect_blip [0xAC, 0x02, 0x00, 0x00]).1.string_offset = some (2 + 1 + 1 + 43) :=
  C9_six_fixed_property_items [0xAC, 0x02, 0x00, 0x00] 300 2 0 1 0 1 rfl rfl rfl

/-- C10: for every integer `i`, `PRINTF_BYTE_TO_BINARY_INT8(i)` yields eight
characters, each '0' or '1', which are the binary digits of `i mod 256`, most
significant bit first; flags 0x48 render as "01001000", and this is what
`dissect_blip` prints for a frame whose flags are 0x48. -/
theorem C10_binary_digits (i : Int) :
    PRINTF_BYTE_TO_BINARY_INT8 i = binary_digits_mod_256 i ∧
    (PRINTF_BYTE_TO_BINARY_INT8 i).length = 8 ∧
    (∀ c ∈ PRINTF_BYTE_TO_BINARY_INT8 i, c = '0' ∨ c = '1') ∧
    PRINTF_BYTE_TO_BINARY_INT8 0x48 = "01001000".toList ∧
    printf_line.frame_flags_binary "01001000".toList ∈
      (dissect_blip [0x01, 0x48, 0x00]).1.stdout := by
  have h7 : binary_digit i 0x80 = if (i % 256) / 2 ^ 7 % 2 = 1 then '1' else '0' := by
    simpa using binary_digit_two_pow i 7 (by decide)
  have h6 : binary_digit i 0x40 = if (i % 256) / 2 ^ 6 % 2 = 1 then '1' else '0' := by
    simpa using binary_digit_two_pow i 6 (by decide)
  have h5 : binary_digit i 0x20 = if (i % 256) / 2 ^ 5 % 2 = 1 then '1' else '0' := by
    simpa using binary_digit_two_pow i 5 (by decide)
  have h4 : binary_digit i 0x10 = if (i % 256) / 2 ^ 4 % 2 = 1 then '1' else '0' := by
    simpa using binary_digit_two_pow i 4 (by decide)
  have h3 : binary_digit i 0x08 = if (i % 256) / 2 ^ 3 % 2 = 1 then '1' else '0' := by
    simpa using binary_digit_two_pow i 3 (by decide)
  have h2 : binary_digit i 0x04 = if (i % 256) / 2 ^ 2 % 2 = 1 then '1' else '0' := by
    simpa using binary_digit_two_pow i 2 (by decide)
  have h1 : binary_digit i 0x02 = if (i % 256) / 2 ^ 1 % 2 = 1 then '1' else '0' := by
    simpa using binary_digit_two_pow i 1 (by decide)
  have h0 : binary_digit i 0x01 = if (i % 256) / 2 ^ 0 % 2 = 1 then '1' else '0' := by
    simpa using binary_digit_two_pow i 0 (by decide)
  refine ⟨?_, rfl, ?_, by decide, by decide⟩
  · simp only [PRINTF_BYTE_TO_BINARY_INT8, binary_digits_mod_256, List.map_cons, List.map_nil,
      h7, h6, h5, h4, h3, h2, h1, h0]
  · intro c hc
    simp only [PRINTF_BYTE_TO_BINARY_INT8, List.mem_cons, List.mem_singleton] at hc
    have hnil : c ∉ ([] : List Char) := List.not_mem_nil c
    rcases hc with rfl | rfl | rfl | rfl | rfl | rfl | rfl | hc
    · exact binary_digit_cases _ _
    · exact binary_digit_cases _ _
    · exact binary_digit_cases _ _
    · exact binary_digit_cases _ _
    · exact binary_digit_cases _ _
    · exact binary_digit_cases _ _
    · exact binary_digit_cases _ _
    · rcases hc with rfl | hc
      · exact binary_digit_cases _ _
      · exact absurd hc hnil

end Blip
